import Mathlib

set_option maxHeartbeats 1000000
set_option maxRecDepth 8000

namespace MailIntelKit

/-!
Shallow embedding of the DNS-record analysis core of MailIntelKit
(`src/email_security_check/dns_utils.py` and `src/email_security_check/core.py`).
DNS is modelled as a pure function `String → List String` returning the TXT
strings published at a name.  The Python regular expressions used by the code
are embedded as direct character scanners with Python `re` semantics:
`\b` word boundaries, case-insensitive literal alternation with distinct first
characters, greedy character classes, and non-overlapping left-to-right
`findall`/first-match `search`.
-/

/-- Python `\w` for the ASCII inputs handled here: letters, digits, underscore. -/
def isWordChar (c : Char) : Bool := c.isAlpha || c.isDigit || c == '_'

/-- Python `\s` (ASCII whitespace set, as used by `str.strip` and `\s`). -/
def isSpaceChar (c : Char) : Bool :=
  c == ' ' || c == '\t' || c == '\n' || c == '\r' || c == '\x0b' || c == '\x0c'

def isWordOpt : Option Char → Bool
  | none => false
  | some c => isWordChar c

/-- Python `\b`: a position is a word boundary iff exactly one of the two
neighbouring characters (string ends count as non-word) is a word character. -/
def isBoundary (a b : Option Char) : Bool := isWordOpt a != isWordOpt b

/-- Case-insensitive literal match (`re.I`): `pat` is given in lower case;
returns the consumed original characters and the rest of the input. -/
def matchCI : List Char → List Char → Option (List Char × List Char)
  | [], l => some ([], l)
  | _ :: _, [] => none
  | p :: ps, c :: cs =>
    if c.toLower == p then
      match matchCI ps cs with
      | some (m, r) => some (c :: m, r)
      | none => none
    else none

/-- Case-sensitive literal match (patterns compiled without `re.I`). -/
def matchCS : List Char → List Char → Option (List Char × List Char)
  | [], l => some ([], l)
  | _ :: _, [] => none
  | p :: ps, c :: cs =>
    if c == p then
      match matchCS ps cs with
      | some (m, r) => some (c :: m, r)
      | none => none
    else none

/-- Greedy `[^\s]+` (split into the longest run and the rest; caller checks
that the run is nonempty). -/
def takeNonSpace (l : List Char) : List Char × List Char :=
  (l.takeWhile (fun c => !(isSpaceChar c)), l.dropWhile (fun c => !(isSpaceChar c)))

/-- Greedy `[^;]+`. -/
def takeNonSemi (l : List Char) : List Char × List Char :=
  (l.takeWhile (fun c => c != ';'), l.dropWhile (fun c => c != ';'))

/-- Literal (case-insensitive) followed by `[^\s]+`. -/
def litThenNonSpace (lit : List Char) (l : List Char) : Option (List Char × List Char) :=
  match matchCI lit l with
  | some (m, r) =>
    let w := takeNonSpace r
    if w.1.isEmpty then none else some (m ++ w.1, w.2)
  | none => none

/-- Literal (case-insensitive) followed by a `\b` word boundary. -/
def litThenBoundary (lit : List Char) (l : List Char) : Option (List Char × List Char) :=
  match matchCI lit l with
  | some (m, r) => if isBoundary m.getLast? r.head? then some (m, r) else none
  | none => none

/-- One alternative of `SPF_MECHANISM_LOOKUP_RE`
(`\b(?:include:[^\s]+|exists:[^\s]+|ptr\b|mx\b|a\b|redirect=[^\s]+)`, `re.I`)
tried at the current position; the leading `\b` is checked by the caller.
The six alternatives start with six distinct letters, so Python's
left-to-right alternative order never matters here. -/
def mechAltAt (l : List Char) : Option (List Char × List Char) :=
  (litThenNonSpace "include:".data l).orElse fun _ =>
  (litThenNonSpace "exists:".data l).orElse fun _ =>
  (litThenBoundary "ptr".data l).orElse fun _ =>
  (litThenBoundary "mx".data l).orElse fun _ =>
  (litThenBoundary "a".data l).orElse fun _ =>
  litThenNonSpace "redirect=".data l

/-- One alternative of `SPF_ALL_RE` (`\b(?:~all|-all|\+all|\?all)\b`, `re.I`);
leading `\b` checked by the caller, trailing `\b` checked here. -/
def allAltAt (l : List Char) : Option (List Char × List Char) :=
  (matchCI "~all".data l).orElse fun _ =>
  (matchCI "-all".data l).orElse fun _ =>
  (matchCI "+all".data l).orElse fun _ =>
  matchCI "?all".data l

/-- A matcher takes the previous character (for `\b`) and the current suffix,
returning `(captured result, whole matched text, rest)` on success. -/
def Matcher : Type := Option Char → List Char → Option (List Char × List Char × List Char)

def mechMatcher : Matcher := fun prev l =>
  if isBoundary prev l.head? then
    match mechAltAt l with
    | some (m, r) => some (m, m, r)
    | none => none
  else none

def allMatcher : Matcher := fun prev l =>
  if isBoundary prev l.head? then
    match allAltAt l with
    | some (m, r) => if isBoundary m.getLast? r.head? then some (m, m, r) else none
    | none => none
  else none

/-- `\binclude:([^\s]+)` with `re.I`: captures the target. -/
def includeMatcher : Matcher := fun prev l =>
  if isBoundary prev l.head? then
    match matchCI "include:".data l with
    | some (m, r) =>
      let w := takeNonSpace r
      if w.1.isEmpty then none else some (w.1, m ++ w.1, w.2)
    | none => none
  else none

/-- `\bredirect=([^\s]+)` with `re.I`: captures the target. -/
def redirectMatcher : Matcher := fun prev l =>
  if isBoundary prev l.head? then
    match matchCI "redirect=".data l with
    | some (m, r) =>
      let w := takeNonSpace r
      if w.1.isEmpty then none else some (w.1, m ++ w.1, w.2)
    | none => none
  else none

/-- `\b<tag>([^;]+)` compiled without flags (case-sensitive), as used for the
DKIM `p=` and `k=` tags: captures the value. -/
def tagMatcher (tag : List Char) : Matcher := fun prev l =>
  if isBoundary prev l.head? then
    match matchCS tag l with
    | some (m, r) =>
      let w := takeNonSemi r
      if w.1.isEmpty then none else some (w.1, m ++ w.1, w.2)
    | none => none
  else none

/-- `re.findall`: scan left to right, collecting non-overlapping matches.
The fuel starts at `length + 1`; every step either consumes the matched text
(nonempty for all matchers above) or advances one character, so the fuel is
never exhausted before the input is. -/
def findallAux (matcher : Matcher) : Nat → Option Char → List Char → List (List Char)
  | 0, _, _ => []
  | _ + 1, _, [] => []
  | fuel + 1, prev, c :: cs =>
    match matcher prev (c :: cs) with
    | some (res, m, r) => res :: findallAux matcher fuel m.getLast? r
    | none => findallAux matcher fuel (some c) cs

def findall (matcher : Matcher) (l : List Char) : List (List Char) :=
  findallAux matcher (l.length + 1) none l

/-- `re.search`: first match, scanning left to right. -/
def searchAux (matcher : Matcher) : Nat → Option Char → List Char → Option (List Char)
  | 0, _, _ => none
  | _ + 1, _, [] => none
  | fuel + 1, prev, c :: cs =>
    match matcher prev (c :: cs) with
    | some (res, _, _) => some res
    | none => searchAux matcher fuel (some c) cs

def search (matcher : Matcher) (l : List Char) : Option (List Char) :=
  searchAux matcher (l.length + 1) none l

/-- `SPF_INCLUDE_RE.findall`. -/
def spfIncludeFindall (s : String) : List String :=
  (findall includeMatcher s.data).map String.mk

/-- `SPF_REDIRECT_RE.findall`. -/
def spfRedirectFindall (s : String) : List String :=
  (findall redirectMatcher s.data).map String.mk

/-- `SPF_MECHANISM_LOOKUP_RE.findall`. -/
def spfMechFindall (s : String) : List String :=
  (findall mechMatcher s.data).map String.mk

/-- `SPF_ALL_RE.search`, returning `group(0)`. -/
def spfAllSearch (s : String) : Option String :=
  (search allMatcher s.data).map String.mk

/-- Python `str.strip()` on a character list. -/
def stripChars (l : List Char) : List Char :=
  ((l.dropWhile isSpaceChar).reverse.dropWhile isSpaceChar).reverse

/-- Python `str.strip()`. -/
def pyStrip (s : String) : String := String.mk (stripChars s.data)

/-- Python `str.lower()` (ASCII). -/
def lowerStr (s : String) : String := String.mk (s.data.map Char.toLower)

-- ---------- Configuration (dns_utils.py) ----------

def SPF_DNS_LOOKUP_LIMIT : Nat := 10

def MAX_INCLUDE_RECURSION : Nat := 10

-- ---------- parse_spf ----------

structure SpfParsed where
  raw : String
  includes : List String
  redirect : Option String
  lookup_mechanisms : List String
  all_mechanism : Option String
deriving DecidableEq

/-- `parse_spf` from `dns_utils.py`. -/
def parse_spf (spf_text : String) : SpfParsed :=
  { raw := spf_text
    includes := spfIncludeFindall spf_text
    redirect := (spfRedirectFindall spf_text).head?
    lookup_mechanisms := spfMechFindall spf_text
    all_mechanism := spfAllSearch spf_text }

-- ---------- parse_dmarc ----------

/-- Python `dict` assignment `m[k] = v`: overwrite in place, else append. -/
def assocSet (m : List (String × String)) (k v : String) : List (String × String) :=
  if (m.find? (fun kv => kv.1 == k)).isSome then
    m.map (fun kv => if kv.1 == k then (kv.1, v) else kv)
  else m ++ [(k, v)]

/-- `parse_dmarc` from `dns_utils.py`: split on `;`, keep parts containing
`=`, split each once at the first `=`, lower-case and strip the key, strip
the value.  The result models the Python insertion-ordered dict. -/
def parse_dmarc (dmarc_text : String) : List (String × String) :=
  let parts := (dmarc_text.data.splitOn ';').map stripChars
  parts.foldl (fun tags p =>
    if p.contains '=' then
      let k := p.takeWhile (fun c => c != '=')
      let v := (p.dropWhile (fun c => c != '=')).drop 1
      assocSet tags (String.mk ((stripChars k).map Char.toLower)) (String.mk (stripChars v))
    else tags) []

-- ---------- resolve_spf_lookups ----------

/-- Result/working state of `resolve_spf_lookups`.  The fields `resolved`,
`visited`, `errors`, `lookup_count` embed the four Python locals; `queries`
and `processed` are ghost instrumentation absent from the source: `queries`
records each domain for which a DNS TXT query is issued (in order) and
`processed` records each SPF text whose mechanisms are scanned.  Ghost
fields are only appended to alongside the real state updates and never
influence the computed data. -/
structure ResolveState where
  resolved : List String
  visited : List String
  errors : List String
  lookup_count : Nat
  queries : List String
  processed : List String
deriving DecidableEq

def initState : ResolveState :=
  { resolved := [], visited := [], errors := [], lookup_count := 0,
    queries := [], processed := [] }

def depthErr (name : String) : String :=
  s!"spf include recursion depth exceeded at {name}"

/-- `t.strip().lower().startswith("v=spf1")`. -/
def isSpfString (t : String) : Bool :=
  "v=spf1".data.isPrefixOf ((stripChars t.data).map Char.toLower)

/-- The inner `_recurse` of `resolve_spf_lookups`, reindexed on the remaining
depth budget: Python calls `_recurse(name, txt, depth)` and aborts when
`depth > max_recursion`; here `fuel = max_recursion + 1 - depth`, so the
abort guard is exactly `fuel = 0` and recursive descent decrements `fuel`. -/
def recurse (dns : String → List String) : Nat → String → String → ResolveState → ResolveState
  | 0, name, _txt, st => { st with errors := st.errors ++ [depthErr name] }
  | fuel + 1, _name, txt, st =>
    let mechs := spfMechFindall txt
    let st1 := { st with lookup_count := st.lookup_count + mechs.length,
                         processed := st.processed ++ [txt] }
    (spfIncludeFindall txt).foldl (fun acc inc0 =>
      let inc := pyStrip inc0
      if inc ∈ acc.visited then acc
      else
        let acc1 := { acc with visited := acc.visited ++ [inc],
                               queries := acc.queries ++ [inc] }
        let found_spf := (dns inc).filter isSpfString
        let acc2 := { acc1 with resolved := acc1.resolved ++ [inc] }
        found_spf.foldl (fun a s => recurse dns fuel inc s a) acc2) st1

/-- `resolve_spf_lookups` from `dns_utils.py` (top-level call at depth 0).
The modelled DNS function is total, so the Python `except` branch that
records "error resolving include" strings never fires in the model. -/
def resolve_spf_lookups (dns : String → List String) (domain : String)
    (spf_text : String) (max_recursion : Nat) : ResolveState :=
  recurse dns (max_recursion + 1) domain spf_text initState

-- ---------- check_dkim_selector ----------

structure DkimInfo where
  selector : String
  name : String
  present : Bool
  raw : Option String
  key_type : Option String
  key_bits_approx : Option Nat
  has_pub : Bool
deriving DecidableEq

/-- `re.search(r"\bp=([^;]+)", s)`, returning `group(1)`. -/
def searchPValue (s : String) : Option String :=
  (search (tagMatcher "p=".data) s.data).map String.mk

/-- `re.search(r"\bk=([^;]+)", s)`, returning `group(1)`. -/
def searchKValue (s : String) : Option String :=
  (search (tagMatcher "k=".data) s.data).map String.mk

/-- `re.sub(r"\s+", "", s)`. -/
def removeWs (s : String) : String :=
  String.mk (s.data.filter (fun c => !(isSpaceChar c)))

/-- Python `needle in hay` on strings: contiguous-substring test. -/
def containsSub (needle : List Char) : List Char → Bool
  | [] => needle.isPrefixOf []
  | c :: cs => needle.isPrefixOf (c :: cs) || containsSub needle cs

/-- The record-parsing tail of `check_dkim_selector` (lines after the chosen
TXT string is fixed): sets `present`/`raw`, extracts `p=` (with `has_pub`
true iff the stripped value is nonempty and not `-`, and in that case the
6-bits-per-base64-character estimate), and extracts `k=`. -/
def dkim_info_of (selector name dkim_txt : String) : DkimInfo :=
  let info1 : DkimInfo :=
    { selector := selector, name := name, present := true, raw := some dkim_txt,
      key_type := none, key_bits_approx := none, has_pub := false }
  let info2 :=
    match searchPValue dkim_txt with
    | some pubRaw =>
      let pub := pyStrip pubRaw
      if pub != "" && pub != "-" then
        { info1 with has_pub := true,
                     key_bits_approx := some (6 * (removeWs pub).data.length) }
      else info1
    | none => info1
  match searchKValue dkim_txt with
  | some kv => { info2 with key_type := some (pyStrip kv) }
  | none => info2

/-- `check_dkim_selector` from `dns_utils.py`, with the DNS TXT lookup
abstracted as `dns`.  The `for`-loop choosing the first TXT string containing
`v=DKIM1` or `p=` with fallback to `txts[0]` is `find? … |>.getD (headD "")`. -/
def check_dkim_selector (dns : String → List String) (domain selector : String) : DkimInfo :=
  let name := selector ++ "._domainkey." ++ domain
  let txts := dns name
  if txts.isEmpty then
    { selector := selector, name := name, present := false, raw := none,
      key_type := none, key_bits_approx := none, has_pub := false }
  else
    dkim_info_of selector name
      ((txts.find? (fun t =>
          containsSub "v=DKIM1".data t.data || containsSub "p=".data t.data)).getD
        (txts.headD ""))

-- ---------- score_and_conclusions (core.py) ----------

structure Conclusions where
  score : Int
  reasons : List String
deriving DecidableEq

def noSpfReason : String := "No SPF record found (high risk of spoofing)."

def multipleSpfReason : String := "Multiple SPF records found (invalid SPF configuration)."

def noAllMechReason : String :=
  "SPF record has no \x27all\x27 mechanism - may allow unintended senders."

def overLimitReason (c : Nat) : String :=
  s!"SPF mechanisms likely cause {c} DNS lookups (> {SPF_DNS_LOOKUP_LIMIT}). This can break SPF enforcement."

def closeLimitReason (c : Nat) : String :=
  s!"SPF mechanisms cause {c} DNS lookups (close to limit)."

def noDmarcReason : String :=
  "No DMARC record found (no domain-wide policy for unauthenticated mail)."

def pctReason (pct : Int) : String := s!"DMARC pct={pct} (not applied to all mail)."

def noRuaReason : String :=
  "No RUA (aggregate) reporting configured (you won\x27t get aggregate reports)."

def noDkimReason : String := "No DKIM selectors found using heuristics (may not use DKIM)."

def weakKeyReason (sel : String) (bits : Nat) : String :=
  s!"DKIM selector {sel} has a weak public key (~{bits} bits estimated)."

def midKeyReason (sel : String) (bits : Nat) : String :=
  s!"DKIM selector {sel} uses ~{bits} bits (consider 2048)."

def okKeyReason (sel : String) (bits : Nat) : String :=
  s!"DKIM selector {sel} key size looks OK (~{bits} bits)."

/-- The per-detail `all_mechanism` rule of `score_and_conclusions`
(the body of `for d in spf_details`). -/
def spfDetailRule (st : Int × List String) (d : SpfParsed) : Int × List String :=
  match d.all_mechanism with
  | none => (st.1 - 5, st.2 ++ [noAllMechReason])
  | some all_mech =>
    let lm := lowerStr all_mech
    if lm == "+all" then
      (st.1 - 25, st.2 ++ ["SPF uses +all (permits everything) — critical misconfiguration."])
    else if lm == "?all" then
      (st.1 - 10, st.2 ++ ["SPF uses ?all (neutral) — weak protection."])
    else if lm == "~all" then
      (st.1 - 3, st.2 ++ ["SPF uses ~all (softfail) — allows some leeway."])
    else if lm == "-all" then
      (st.1, st.2 ++ ["SPF uses -all (reject) — strict, good."])
    else st

/-- The `len(spf_records) > 1` rule. -/
def multiSpfRule (spf_records : List String) (st : Int × List String) : Int × List String :=
  if spf_records.length > 1 then (st.1 - 30, st.2 ++ [multipleSpfReason]) else st

/-- The two-band total-lookup-count rule
(`> limit` → −20, else `> limit − 3` → −7, else nothing). -/
def lookupCountRule (spf_lookup_count : Nat) (st : Int × List String) : Int × List String :=
  if spf_lookup_count > SPF_DNS_LOOKUP_LIMIT then
    (st.1 - 20, st.2 ++ [overLimitReason spf_lookup_count])
  else if spf_lookup_count > SPF_DNS_LOOKUP_LIMIT - 3 then
    (st.1 - 7, st.2 ++ [closeLimitReason spf_lookup_count])
  else st

/-- The SPF block of `score_and_conclusions` (score and reasons threaded as a
pair, exactly mirroring the sequential `score -= …` / `reasons.append(…)`
statements). -/
def spfSection (spf_records : List String) (spf_details : List SpfParsed)
    (spf_lookup_count : Nat) (st : Int × List String) : Int × List String :=
  if spf_records.isEmpty then
    (st.1 - 40, st.2 ++ [noSpfReason])
  else
    lookupCountRule spf_lookup_count
      (spf_details.foldl spfDetailRule (multiSpfRule spf_records st))

/-- Python truthiness of `dmarc_text` in `if not dmarc_text` (`None` and the
empty string are falsy). -/
def pyTruthyStr : Option String → Bool
  | none => false
  | some s => s != ""

/-- `tags.get(k, dflt)`. -/
def getTag (tags : List (String × String)) (k dflt : String) : String :=
  match tags.find? (fun kv => kv.1 == k) with
  | some kv => kv.2
  | none => dflt

/-- `k in tags`. -/
def hasTag (tags : List (String × String)) (k : String) : Bool :=
  (tags.find? (fun kv => kv.1 == k)).isSome

/-- `int(s)` with the surrounding `try … except: dflt`. -/
def pyInt (s : String) (dflt : Int) : Int :=
  match (pyStrip s).toInt? with
  | some n => n
  | none => dflt

/-- The DMARC `p` policy rule (`p` already lower-cased, default `""`). -/
def dmarcPolicyRule (p : String) (st : Int × List String) : Int × List String :=
  if p == "none" || p == "" then
    (st.1 - 10, st.2 ++ ["DMARC policy p=none (monitoring only). Consider p=quarantine or p=reject."])
  else if p == "quarantine" then
    (st.1 - 3, st.2 ++ ["DMARC policy p=quarantine (moderate)."])
  else if p == "reject" then
    (st.1, st.2 ++ ["DMARC policy p=reject (strong)."])
  else st

/-- The DMARC `pct < 100` rule. -/
def pctRule (pct : Int) (st : Int × List String) : Int × List String :=
  if pct < 100 then (st.1 - 5, st.2 ++ [pctReason pct]) else st

/-- The missing-`rua` rule. -/
def ruaRule (dmarc_tags : List (String × String)) (st : Int × List String) :
    Int × List String :=
  if !(hasTag dmarc_tags "rua") then (st.1 - 3, st.2 ++ [noRuaReason]) else st

/-- The DMARC block of `score_and_conclusions`. -/
def dmarcSection (dmarc_text : Option String) (dmarc_tags : List (String × String))
    (st : Int × List String) : Int × List String :=
  if !(pyTruthyStr dmarc_text) then
    (st.1 - 30, st.2 ++ [noDmarcReason])
  else
    ruaRule dmarc_tags
      (pctRule (pyInt (getTag dmarc_tags "pct" "100") 100)
        (dmarcPolicyRule (lowerStr (getTag dmarc_tags "p" "")) st))

/-- The per-selector rule of the DKIM block (`if kinfo.get("key_bits_approx")`
uses Python truthiness, so a missing or zero estimate is skipped). -/
def dkimRule (st : Int × List String) (kinfo : DkimInfo) : Int × List String :=
  match kinfo.key_bits_approx with
  | none => st
  | some bits =>
    if bits == 0 then st
    else if bits < 1024 then (st.1 - 10, st.2 ++ [weakKeyReason kinfo.selector bits])
    else if bits < 2048 then (st.1 - 3, st.2 ++ [midKeyReason kinfo.selector bits])
    else (st.1, st.2 ++ [okKeyReason kinfo.selector bits])

/-- The DKIM block of `score_and_conclusions`. -/
def dkimSection (dkim_infos : List DkimInfo) (st : Int × List String) : Int × List String :=
  if dkim_infos.isEmpty then (st.1 - 10, st.2 ++ [noDkimReason])
  else dkim_infos.foldl dkimRule st

/-- `score_and_conclusions` from `core.py`.  `spf_errors` is a parameter of
the Python function that its body never reads. -/
def score_and_conclusions (spf_records : List String) (spf_details : List SpfParsed)
    (spf_lookup_count : Nat) (spf_errors : List String) (dmarc_text : Option String)
    (dmarc_tags : List (String × String)) (dkim_infos : List DkimInfo) : Conclusions :=
  let _ := spf_errors
  let st0 : Int × List String := (100, [])
  let st1 := spfSection spf_records spf_details spf_lookup_count st0
  let st2 := dmarcSection dmarc_text dmarc_tags st1
  let st3 := dkimSection dkim_infos st2
  let score1 : Int := if st3.1 < 0 then 0 else st3.1
  let score2 : Int := if score1 > 100 then 100 else score1
  { score := score2, reasons := st3.2 }

-- ---------- Concrete fixtures used by the test-style theorems ----------

/-- An inert DNS environment holding a chain of 11 nested SPF includes:
`a1.com` includes `a2.com`, …, `a10.com` includes `a11.com`; the record of
`a11.com` carries three further lookup-costing mechanisms. -/
def chainDns : String → List String := fun n =>
  if n == "a1.com" then ["v=spf1 include:a2.com"]
  else if n == "a2.com" then ["v=spf1 include:a3.com"]
  else if n == "a3.com" then ["v=spf1 include:a4.com"]
  else if n == "a4.com" then ["v=spf1 include:a5.com"]
  else if n == "a5.com" then ["v=spf1 include:a6.com"]
  else if n == "a6.com" then ["v=spf1 include:a7.com"]
  else if n == "a7.com" then ["v=spf1 include:a8.com"]
  else if n == "a8.com" then ["v=spf1 include:a9.com"]
  else if n == "a9.com" then ["v=spf1 include:a10.com"]
  else if n == "a10.com" then ["v=spf1 include:a11.com"]
  else if n == "a11.com" then ["v=spf1 mx mx mx"]
  else []

/-- A 256-character base64 payload. -/
def payload256 : String := String.mk (List.replicate 256 'A')

/-- A DKIM record publishing the 256-character payload in `p=`. -/
def dkimRecord256 : String := "v=DKIM1; k=rsa; p=" ++ payload256

/-- A DNS environment answering every name with `dkimRecord256`. -/
def dkim256Dns : String → List String := fun _ => [dkimRecord256]

/-- A DNS environment with no TXT records at all. -/
def emptyDns : String → List String := fun _ => []

/-- The stripped `include:` targets of one SPF text, exactly as the resolver
enumerates them before deciding whether to query each one. -/
def includeTargetsOf (txt : String) : List String :=
  (spfIncludeFindall txt).map pyStrip

-- ---------- Resolver invariants ----------

/-- Every issued DNS TXT query targets an `include:` of some processed text. -/
def QueriesFromIncludes (s : ResolveState) : Prop :=
  ∀ q ∈ s.queries, ∃ p ∈ s.processed, q ∈ includeTargetsOf p

/-- The query log has no duplicates and is covered by the visited set. -/
def QueriesOnce (s : ResolveState) : Prop :=
  s.queries.Nodup ∧ ∀ q ∈ s.queries, q ∈ s.visited

/-- Every resolved domain was queried. -/
def ResolvedQueried (s : ResolveState) : Prop :=
  ∀ x ∈ s.resolved, x ∈ s.queries

/-- One resolver step extends the four cumulative fields and preserves the
walk invariants. -/
def StepOk (a b : ResolveState) : Prop :=
  (∃ x, b.processed = a.processed ++ x) ∧
  (∃ x, b.visited = a.visited ++ x) ∧
  (∃ x, b.queries = a.queries ++ x) ∧
  (∃ x, b.resolved = a.resolved ++ x) ∧
  (QueriesFromIncludes a → QueriesFromIncludes b) ∧
  (QueriesOnce a → QueriesOnce b) ∧
  (ResolvedQueried a → ResolvedQueried b)

/-- One scoring rule only ever lowers the score and appends reasons. -/
def Extends (a b : Int × List String) : Prop :=
  b.1 ≤ a.1 ∧ ∃ L, b.2 = a.2 ++ L

-- ---------- Theorems ----------

/-- C1: the claim expects `parse_spf "v=spf1 include:x.com ~all"` to report
`all_mechanism = "~all"`, but the code's `SPF_ALL_RE` places `\b` before the
non-word qualifier character, so a qualifier preceded by a space (the normal
SPF layout) never matches and the parser reports no `all` mechanism at all. -/
theorem parse_spf_all_mechanism_dropped_on_example :
    (parse_spf "v=spf1 include:x.com ~all").all_mechanism = none := by decide

/-- C2 counterexample: the parsed DMARC mapping for the claim's input also
contains the entry `v ↦ DMARC1`, so it is not exactly `{p, pct, rua}`. -/
theorem parse_dmarc_example_has_v_tag :
    ("v", "DMARC1") ∈ parse_dmarc "v=DMARC1; p=reject; pct=50; rua=mailto:x@y.com" := by
  decide

/-- C2 (amended): `parse_dmarc "v=DMARC1; p=reject; pct=50; rua=mailto:x@y.com"`
returns exactly the lower-cased-tag/trimmed-value mapping
`{v: DMARC1, p: reject, pct: 50, rua: mailto:x@y.com}`, in insertion order. -/
theorem parse_dmarc_example_tags :
    parse_dmarc "v=DMARC1; p=reject; pct=50; rua=mailto:x@y.com"
      = [("v", "DMARC1"), ("p", "reject"), ("pct", "50"), ("rua", "mailto:x@y.com")] := by
  decide

/-- C7: on `"v=spf1 include:a.com a mx ~all"` the parser's lookup mechanisms
are exactly `[include:a.com, a, mx]` (length 3): the `a` inside `~all` and
inside `a.com` is not counted. -/
theorem parse_spf_lookup_mechanisms_example :
    (parse_spf "v=spf1 include:a.com a mx ~all").lookup_mechanisms
        = ["include:a.com", "a", "mx"] ∧
    (parse_spf "v=spf1 include:a.com a mx ~all").lookup_mechanisms.length = 3 := by
  exact ⟨by decide, by decide⟩

/-- C3: with no SPF records, no DMARC text and no discovered DKIM selectors,
the score is 100 − 40 − 30 − 10 = 20 and the reasons are exactly the no-SPF,
no-DMARC, no-DKIM reasons in that order, whatever the other inputs are. -/
theorem score_no_spf_no_dmarc_no_dkim
    (spf_details : List SpfParsed) (c : Nat) (e : List String)
    (tags : List (String × String)) :
    score_and_conclusions [] spf_details c e none tags [] =
      { score := 20, reasons := [noSpfReason, noDmarcReason, noDkimReason] } := rfl

/-- C6 counterexample: at a total lookup count of exactly 7 the engine makes
no lookup-count deduction at all (the run is identical to a run with count 0,
and no close-to-limit reason is emitted), contradicting the claim's
"at least 7" reading of the −7 band. -/
theorem lookup_count_seven_no_deduction :
    score_and_conclusions ["v=spf1 -all"] [parse_spf "v=spf1 -all"] 7 [] none [] []
      = score_and_conclusions ["v=spf1 -all"] [parse_spf "v=spf1 -all"] 0 [] none [] [] ∧
    closeLimitReason 7 ∉
      (score_and_conclusions ["v=spf1 -all"] [parse_spf "v=spf1 -all"] 7 [] none [] []).reasons := by
  exact ⟨by decide, by decide⟩

/-- C4: the resolver is a total function (its recursion is bounded by the
remaining depth budget, so it terminates on every input), and on the
synthetic chain of 11 nested includes with maximum depth 10 it reports
exactly one depth-exceeded error naming `a11.com`, the domain at which the
branch was cut, and counts none of the 3 lookup mechanisms of `a11.com`'s
record (the total stays at 11, one per record actually scanned). -/
theorem resolve_spf_lookups_terminates_and_depth_guard :
    (∀ (dns : String → List String) (domain spf_text : String) (m : Nat),
        ∃ r : ResolveState, resolve_spf_lookups dns domain spf_text m = r) ∧
    (resolve_spf_lookups chainDns "example.com" "v=spf1 include:a1.com" 10).errors
        = ["spf include recursion depth exceeded at a11.com"] ∧
    (resolve_spf_lookups chainDns "example.com" "v=spf1 include:a1.com" 10).lookup_count
        = 11 := by
  exact ⟨fun dns d t m => ⟨_, rfl⟩, by decide, by decide⟩

-- ---------- Scoring-engine helper lemmas ----------

lemma extends_refl (a : Int × List String) : Extends a a :=
  ⟨le_refl _, [], (List.append_nil _).symm⟩

lemma extends_trans {a b c : Int × List String} (h1 : Extends a b) (h2 : Extends b c) :
    Extends a c := by
  obtain ⟨hle1, L1, hL1⟩ := h1
  obtain ⟨hle2, L2, hL2⟩ := h2
  exact ⟨le_trans hle2 hle1, L1 ++ L2, by rw [hL2, hL1, List.append_assoc]⟩

lemma extends_step (a : Int × List String) (k : Int) (hk : 0 ≤ k) (L : List String) :
    Extends a (a.1 - k, a.2 ++ L) :=
  ⟨by omega, L, rfl⟩

lemma extends_foldl {α : Type} (f : Int × List String → α → Int × List String)
    (hf : ∀ st a, Extends st (f st a)) :
    ∀ (l : List α) (st : Int × List String), Extends st (l.foldl f st) := by
  intro l
  induction l with
  | nil => intro st; exact extends_refl st
  | cons a l ih => intro st; exact extends_trans (hf st a) (ih (f st a))

lemma spfDetailRule_extends (st : Int × List String) (d : SpfParsed) :
    Extends st (spfDetailRule st d) := by
  unfold spfDetailRule
  cases d.all_mechanism with
  | none => exact extends_step st 5 (by omega) _
  | some am =>
    dsimp only
    split_ifs
    · exact extends_step st 25 (by omega) _
    · exact extends_step st 10 (by omega) _
    · exact extends_step st 3 (by omega) _
    · exact ⟨le_refl _, _, rfl⟩
    · exact extends_refl st

lemma multiSpfRule_extends (r : List String) (st : Int × List String) :
    Extends st (multiSpfRule r st) := by
  unfold multiSpfRule
  split_ifs
  · exact extends_step st 30 (by omega) _
  · exact extends_refl st

lemma lookupCountRule_extends (c : Nat) (st : Int × List String) :
    Extends st (lookupCountRule c st) := by
  unfold lookupCountRule
  split_ifs
  · exact extends_step st 20 (by omega) _
  · exact extends_step st 7 (by omega) _
  · exact extends_refl st

lemma spfSection_extends (r : List String) (d : List SpfParsed) (c : Nat)
    (st : Int × List String) : Extends st (spfSection r d c st) := by
  unfold spfSection
  split_ifs
  · exact extends_step st 40 (by omega) _
  · exact extends_trans (multiSpfRule_extends r st)
      (extends_trans (extends_foldl spfDetailRule spfDetailRule_extends d _)
        (lookupCountRule_extends c _))

lemma dmarcPolicyRule_extends (p : String) (st : Int × List String) :
    Extends st (dmarcPolicyRule p st) := by
  unfold dmarcPolicyRule
  split_ifs
  · exact extends_step st 10 (by omega) _
  · exact extends_step st 3 (by omega) _
  · exact ⟨le_refl _, _, rfl⟩
  · exact extends_refl st

lemma pctRule_extends (pct : Int) (st : Int × List String) :
    Extends st (pctRule pct st) := by
  unfold pctRule
  split_ifs
  · exact extends_step st 5 (by omega) _
  · exact extends_refl st

lemma ruaRule_extends (tags : List (String × String)) (st : Int × List String) :
    Extends st (ruaRule tags st) := by
  unfold ruaRule
  split_ifs
  · exact extends_step st 3 (by omega) _
  · exact extends_refl st

lemma dmarcSection_extends (dt : Option String) (tags : List (String × String))
    (st : Int × List String) : Extends st (dmarcSection dt tags st) := by
  unfold dmarcSection
  split_ifs
  · exact extends_step st 30 (by omega) _
  · exact extends_trans (dmarcPolicyRule_extends _ st)
      (extends_trans (pctRule_extends _ _) (ruaRule_extends tags _))

lemma dkimRule_extends (st : Int × List String) (k : DkimInfo) :
    Extends st (dkimRule st k) := by
  unfold dkimRule
  cases k.key_bits_approx with
  | none => exact extends_refl st
  | some bits =>
    dsimp only
    split_ifs
    · exact extends_refl st
    · exact extends_step st 10 (by omega) _
    · exact extends_step st 3 (by omega) _
    · exact ⟨le_refl _, _, rfl⟩

lemma dkimSection_extends (infos : List DkimInfo) (st : Int × List String) :
    Extends st (dkimSection infos st) := by
  unfold dkimSection
  split_ifs
  · exact extends_step st 10 (by omega) _
  · exact extends_foldl dkimRule dkimRule_extends infos st

lemma score_proj (r : List String) (d : List SpfParsed) (c : Nat) (e : List String)
    (dt : Option String) (tags : List (String × String)) (infos : List DkimInfo) :
    (score_and_conclusions r d c e dt tags infos).score
      = (if (if (dkimSection infos (dmarcSection dt tags (spfSection r d c (100, [])))).1 < 0
             then (0 : Int)
             else (dkimSection infos (dmarcSection dt tags (spfSection r d c (100, [])))).1) > 100
         then (100 : Int)
         else if (dkimSection infos (dmarcSection dt tags (spfSection r d c (100, [])))).1 < 0
              then 0
              else (dkimSection infos (dmarcSection dt tags (spfSection r d c (100, [])))).1) :=
  rfl

lemma reasons_proj (r : List String) (d : List SpfParsed) (c : Nat) (e : List String)
    (dt : Option String) (tags : List (String × String)) (infos : List DkimInfo) :
    (score_and_conclusions r d c e dt tags infos).reasons
      = (dkimSection infos (dmarcSection dt tags (spfSection r d c (100, [])))).2 :=
  rfl

lemma dmarcSection_mem (dt : Option String) (tags : List (String × String))
    (st : Int × List String) (a : String) (h : a ∈ st.2) :
    a ∈ (dmarcSection dt tags st).2 := by
  obtain ⟨_, L, hL⟩ := dmarcSection_extends dt tags st
  rw [hL]
  exact List.mem_append_left _ h

lemma dkimSection_mem (infos : List DkimInfo) (st : Int × List String)
    (a : String) (h : a ∈ st.2) : a ∈ (dkimSection infos st).2 := by
  obtain ⟨_, L, hL⟩ := dkimSection_extends infos st
  rw [hL]
  exact List.mem_append_left _ h

/-- C10: the score starts at 100 and every rule only ever lowers it, so the
pre-clamp total never exceeds 100; the final score is exactly the lower
clamp of the pre-clamp total (the upper clamp branch never changes the
value) and always lies in [0, 100]. -/
theorem score_and_conclusions_bounds
    (r : List String) (d : List SpfParsed) (c : Nat) (e : List String)
    (dt : Option String) (tags : List (String × String)) (infos : List DkimInfo) :
    (dkimSection infos (dmarcSection dt tags (spfSection r d c (100, [])))).1 ≤ 100 ∧
    (score_and_conclusions r d c e dt tags infos).score
      = (if (dkimSection infos (dmarcSection dt tags (spfSection r d c (100, [])))).1 < 0
         then 0
         else (dkimSection infos (dmarcSection dt tags (spfSection r d c (100, [])))).1) ∧
    0 ≤ (score_and_conclusions r d c e dt tags infos).score ∧
    (score_and_conclusions r d c e dt tags infos).score ≤ 100 := by
  have h1 := (spfSection_extends r d c (100, [])).1
  have h2 := (dmarcSection_extends dt tags (spfSection r d c (100, []))).1
  have h3 := (dkimSection_extends infos (dmarcSection dt tags (spfSection r d c (100, [])))).1
  have hpre : (dkimSection infos (dmarcSection dt tags (spfSection r d c (100, [])))).1 ≤ 100 :=
    le_trans h3 (le_trans h2 h1)
  refine ⟨hpre, ?_, ?_, ?_⟩ <;> rw [score_proj] <;> split_ifs <;> omega

/-- C6 (amended): when SPF records exist, a lookup count above the limit of
10 deducts 20 points and emits the over-limit reason carrying the literal
count and limit; a count of at least 8 and at most 10 (within 3 of the
limit per the code's strict comparison) deducts 7 points with the
close-to-limit reason; a count of at most 7 causes no lookup-count
deduction at all — the whole result is the same as with count 0. -/
theorem spf_lookup_count_rule
    (r : List String) (d : List SpfParsed) (c : Nat) (e : List String)
    (dt : Option String) (tags : List (String × String)) (infos : List DkimInfo)
    (hr : r ≠ []) :
    (10 < c →
      spfSection r d c (100, []) =
        ((spfSection r d 0 (100, [])).1 - 20,
          (spfSection r d 0 (100, [])).2 ++ [overLimitReason c]) ∧
      overLimitReason c ∈ (score_and_conclusions r d c e dt tags infos).reasons) ∧
    (7 < c → c ≤ 10 →
      spfSection r d c (100, []) =
        ((spfSection r d 0 (100, [])).1 - 7,
          (spfSection r d 0 (100, [])).2 ++ [closeLimitReason c]) ∧
      closeLimitReason c ∈ (score_and_conclusions r d c e dt tags infos).reasons) ∧
    (c ≤ 7 →
      score_and_conclusions r d c e dt tags infos
        = score_and_conclusions r d 0 e dt tags infos) := by
  obtain ⟨h0, t, rfl⟩ := List.exists_cons_of_ne_nil hr
  have hlim : SPF_DNS_LOOKUP_LIMIT = 10 := rfl
  have hsp : ∀ c', spfSection (h0 :: t) d c' (100, [])
      = lookupCountRule c' (d.foldl spfDetailRule (multiSpfRule (h0 :: t) (100, []))) := by
    intro c'
    simp [spfSection]
  have h0rule : lookupCountRule 0 (d.foldl spfDetailRule (multiSpfRule (h0 :: t) (100, [])))
      = d.foldl spfDetailRule (multiSpfRule (h0 :: t) (100, [])) := rfl
  refine ⟨fun hc => ?_, fun hc7 hc10 => ?_, fun hc => ?_⟩
  · have heq : spfSection (h0 :: t) d c (100, [])
        = ((spfSection (h0 :: t) d 0 (100, [])).1 - 20,
           (spfSection (h0 :: t) d 0 (100, [])).2 ++ [overLimitReason c]) := by
      rw [hsp c, hsp 0, h0rule]
      unfold lookupCountRule
      rw [hlim]
      rw [if_pos (by omega : c > 10)]
    refine ⟨heq, ?_⟩
    rw [reasons_proj]
    apply dkimSection_mem
    apply dmarcSection_mem
    rw [heq]
    exact List.mem_append_right _ (List.mem_singleton_self _)
  · have heq : spfSection (h0 :: t) d c (100, [])
        = ((spfSection (h0 :: t) d 0 (100, [])).1 - 7,
           (spfSection (h0 :: t) d 0 (100, [])).2 ++ [closeLimitReason c]) := by
      rw [hsp c, hsp 0, h0rule]
      unfold lookupCountRule
      rw [hlim]
      rw [if_neg (by omega : ¬ c > 10), if_pos (by omega : c > 10 - 3)]
    refine ⟨heq, ?_⟩
    rw [reasons_proj]
    apply dkimSection_mem
    apply dmarcSection_mem
    rw [heq]
    exact List.mem_append_right _ (List.mem_singleton_self _)
  · have heq : spfSection (h0 :: t) d c (100, []) = spfSection (h0 :: t) d 0 (100, []) := by
      rw [hsp c, hsp 0, h0rule]
      unfold lookupCountRule
      rw [hlim]
      rw [if_neg (by omega : ¬ c > 10), if_neg (by omega : ¬ c > 10 - 3)]
    simp only [score_and_conclusions, heq]

/-- C6 witness: a concrete run over the limit (count 11) carries the
over-limit reason naming 11 and the limit 10. -/
theorem spf_lookup_count_rule_witness :
    overLimitReason 11 ∈
      (score_and_conclusions ["v=spf1 -all"] [] 11 [] none [] []).reasons :=
  ((spf_lookup_count_rule ["v=spf1 -all"] [] 11 [] none [] []
      (by decide)).1 (by omega)).2

-- ---------- DKIM prober lemmas ----------

lemma dkim_info_raw (sel nm dtxt : String) :
    (dkim_info_of sel nm dtxt).raw = some dtxt := by
  unfold dkim_info_of
  cases hp : searchPValue dtxt <;> cases hk : searchKValue dtxt <;>
    simp [hp, hk] <;> split_ifs <;> rfl

lemma dkim_info_has_pub (sel nm dtxt : String) :
    (dkim_info_of sel nm dtxt).has_pub = true ↔
      ∃ pub, searchPValue dtxt = some pub ∧ pyStrip pub ≠ "" ∧ pyStrip pub ≠ "-" := by
  unfold dkim_info_of
  cases hp : searchPValue dtxt with
  | none => cases hk : searchKValue dtxt <;> simp [hp, hk]
  | some pubRaw =>
    by_cases hcond : (pyStrip pubRaw != "" && pyStrip pubRaw != "-") = true
    · have hc : pyStrip pubRaw ≠ "" ∧ pyStrip pubRaw ≠ "-" := by
        simpa [Bool.and_eq_true, bne_iff_ne] using hcond
      cases hk : searchKValue dtxt <;> simp [hp, hk, hcond, hc.1, hc.2]
    · have hc : ¬(pyStrip pubRaw ≠ "" ∧ pyStrip pubRaw ≠ "-") := by
        simpa [Bool.and_eq_true, bne_iff_ne] using hcond
      cases hk : searchKValue dtxt <;>
        simp [hp, hk, hcond] <;>
        (intro h1; by_contra h2; exact hc ⟨h1, h2⟩)

lemma dkim_info_bits (sel nm dtxt : String) :
    ∀ pub, searchPValue dtxt = some pub → pyStrip pub ≠ "" → pyStrip pub ≠ "-" →
      (dkim_info_of sel nm dtxt).key_bits_approx
        = some (6 * (removeWs (pyStrip pub)).data.length) := by
  intro pub hp h1 h2
  have hcond : (pyStrip pub != "" && pyStrip pub != "-") = true := by
    simp [Bool.and_eq_true, bne_iff_ne, h1, h2]
  unfold dkim_info_of
  cases hk : searchKValue dtxt <;> simp [hp, hk, hcond]

lemma check_dkim_empty (dns : String → List String) (domain selector : String)
    (h : (dns (selector ++ "._domainkey." ++ domain)).isEmpty = true) :
    check_dkim_selector dns domain selector
      = { selector := selector, name := selector ++ "._domainkey." ++ domain,
          present := false, raw := none, key_type := none,
          key_bits_approx := none, has_pub := false } := by
  simp [check_dkim_selector, h]

lemma check_dkim_nonempty (dns : String → List String) (domain selector : String)
    (h : ¬ (dns (selector ++ "._domainkey." ++ domain)).isEmpty = true) :
    check_dkim_selector dns domain selector
      = dkim_info_of selector (selector ++ "._domainkey." ++ domain)
          (((dns (selector ++ "._domainkey." ++ domain)).find? (fun t =>
              containsSub "v=DKIM1".data t.data || containsSub "p=".data t.data)).getD
            ((dns (selector ++ "._domainkey." ++ domain)).headD "")) := by
  simp [check_dkim_selector, h]

/-- C8: in every result of `check_dkim_selector`, `has_pub` is true iff the
chosen TXT string has a `p=` value whose stripped payload is nonempty and not
the literal `-`; when a public key is present the bit estimate is 6 times the
length of the payload with all whitespace removed; in particular a 256-character
payload yields `key_bits_approx = 1536`. -/
theorem check_dkim_selector_has_pub_iff
    (dns : String → List String) (domain selector : String) :
    ((check_dkim_selector dns domain selector).has_pub = true ↔
      ∃ raw, (check_dkim_selector dns domain selector).raw = some raw ∧
        ∃ pub, searchPValue raw = some pub ∧ pyStrip pub ≠ "" ∧ pyStrip pub ≠ "-") ∧
    (∀ raw pub, (check_dkim_selector dns domain selector).raw = some raw →
      searchPValue raw = some pub → pyStrip pub ≠ "" → pyStrip pub ≠ "-" →
      (check_dkim_selector dns domain selector).key_bits_approx
        = some (6 * (removeWs (pyStrip pub)).data.length)) ∧
    (check_dkim_selector dkim256Dns "d.com" "s").key_bits_approx = some 1536 := by
  refine ⟨?_, ?_, by decide⟩ <;>
    by_cases hemp : (dns (selector ++ "._domainkey." ++ domain)).isEmpty = true
  · rw [check_dkim_empty dns domain selector hemp]
    simp
  · rw [check_dkim_nonempty dns domain selector hemp, dkim_info_raw]
    rw [dkim_info_has_pub]
    simp
  · rw [check_dkim_empty dns domain selector hemp]
    intro raw pub hraw
    simp at hraw
  · rw [check_dkim_nonempty dns domain selector hemp, dkim_info_raw]
    intro raw pub hraw hp h1 h2
    rw [Option.some.injEq] at hraw
    subst hraw
    exact dkim_info_bits _ _ _ pub hp h1 h2

/-- C8 witness: the 256-character payload record exercises the theorem at a
concrete input, with `has_pub` true and the 6-per-character estimate. -/
theorem check_dkim_selector_has_pub_iff_witness :
    (check_dkim_selector dkim256Dns "d.com" "s").has_pub = true ∧
    (check_dkim_selector dkim256Dns "d.com" "s").key_bits_approx
      = some (6 * (removeWs (pyStrip payload256)).data.length) := by
  have h := check_dkim_selector_has_pub_iff dkim256Dns "d.com" "s"
  exact ⟨h.1.mpr ⟨dkimRecord256, by decide, payload256, by decide, by decide, by decide⟩,
    h.2.1 dkimRecord256 payload256 (by decide) (by decide) (by decide) (by decide)⟩

-- ---------- Resolver walk lemmas ----------

lemma stepOk_refl (a : ResolveState) : StepOk a a :=
  ⟨⟨[], (List.append_nil _).symm⟩, ⟨[], (List.append_nil _).symm⟩,
   ⟨[], (List.append_nil _).symm⟩, ⟨[], (List.append_nil _).symm⟩, id, id, id⟩

lemma stepOk_trans {a b c : ResolveState} (h1 : StepOk a b) (h2 : StepOk b c) :
    StepOk a c := by
  obtain ⟨⟨p1, hp1⟩, ⟨v1, hv1⟩, ⟨q1, hq1⟩, ⟨r1, hr1⟩, f1, g1, e1⟩ := h1
  obtain ⟨⟨p2, hp2⟩, ⟨v2, hv2⟩, ⟨q2, hq2⟩, ⟨r2, hr2⟩, f2, g2, e2⟩ := h2
  exact ⟨⟨p1 ++ p2, by rw [hp2, hp1, List.append_assoc]⟩,
         ⟨v1 ++ v2, by rw [hv2, hv1, List.append_assoc]⟩,
         ⟨q1 ++ q2, by rw [hq2, hq1, List.append_assoc]⟩,
         ⟨r1 ++ r2, by rw [hr2, hr1, List.append_assoc]⟩,
         fun h => f2 (f1 h), fun h => g2 (g1 h), fun h => e2 (e1 h)⟩

lemma stepOk_processed_mono {a b : ResolveState} (h : StepOk a b) {t : String}
    (ht : t ∈ a.processed) : t ∈ b.processed := by
  obtain ⟨⟨p1, hp1⟩, _⟩ := h
  rw [hp1]
  exact List.mem_append_left _ ht

lemma foldl_stepOk {α : Type} (f : ResolveState → α → ResolveState)
    (P : ResolveState → Prop)
    (hP : ∀ a b, StepOk a b → P a → P b) :
    ∀ (l : List α), (∀ st x, x ∈ l → P st → StepOk st (f st x)) →
      ∀ st, P st → StepOk st (l.foldl f st) := by
  intro l
  induction l with
  | nil => intro _ st _; exact stepOk_refl st
  | cons a l ih =>
    intro hf st hp
    have h1 : StepOk st (f st a) := hf st a (List.mem_cons_self a l) hp
    have h2 : P (f st a) := hP _ _ h1 hp
    exact stepOk_trans h1
      (ih (fun st x hx hpx => hf st x (List.mem_cons_of_mem a hx) hpx) (f st a) h2)

lemma stepOk_addInclude (acc : ResolveState) (inc txt : String)
    (hvis : inc ∉ acc.visited) (hinc : inc ∈ includeTargetsOf txt)
    (hproc : txt ∈ acc.processed) :
    StepOk acc { acc with visited := acc.visited ++ [inc],
                          queries := acc.queries ++ [inc],
                          resolved := acc.resolved ++ [inc] } := by
  refine ⟨⟨[], (List.append_nil _).symm⟩, ⟨[inc], rfl⟩, ⟨[inc], rfl⟩, ⟨[inc], rfl⟩,
    ?_, ?_, ?_⟩
  · intro h q hq
    rcases List.mem_append.1 hq with hq | hq
    · exact h q hq
    · rw [List.mem_singleton] at hq
      subst hq
      exact ⟨txt, hproc, hinc⟩
  · rintro ⟨hnd, hqv⟩
    refine ⟨?_, ?_⟩
    · have hni : inc ∉ acc.queries := fun hin => hvis (hqv inc hin)
      rw [List.nodup_append]
      refine ⟨hnd, List.nodup_singleton inc, ?_⟩
      intro x hx hx'
      rw [List.mem_singleton] at hx'
      subst hx'
      exact hni hx
    · intro q hq
      rcases List.mem_append.1 hq with hq | hq
      · exact List.mem_append_left _ (hqv q hq)
      · exact List.mem_append_right _ hq
  · intro h x hx
    rcases List.mem_append.1 hx with hx | hx
    · exact List.mem_append_left _ (h x hx)
    · exact List.mem_append_right _ hx

lemma recurse_succ (dns : String → List String) (fuel : Nat) (name txt : String)
    (st : ResolveState) :
    recurse dns (fuel + 1) name txt st =
      (spfIncludeFindall txt).foldl (fun acc inc0 =>
        let inc := pyStrip inc0
        if inc ∈ acc.visited then acc
        else
          let acc1 := { acc with visited := acc.visited ++ [inc],
                                 queries := acc.queries ++ [inc] }
          let found_spf := (dns inc).filter isSpfString
          let acc2 := { acc1 with resolved := acc1.resolved ++ [inc] }
          found_spf.foldl (fun a s => recurse dns fuel inc s a) acc2)
        { st with lookup_count := st.lookup_count + (spfMechFindall txt).length,
                  processed := st.processed ++ [txt] } := rfl

lemma recurse_stepOk (dns : String → List String) :
    ∀ (fuel : Nat) (name txt : String) (st : ResolveState),
      StepOk st (recurse dns fuel name txt st) := by
  intro fuel
  induction fuel with
  | zero =>
    intro name txt st
    exact ⟨⟨[], (List.append_nil _).symm⟩, ⟨[], (List.append_nil _).symm⟩,
           ⟨[], (List.append_nil _).symm⟩, ⟨[], (List.append_nil _).symm⟩, id, id, id⟩
  | succ fuel ih =>
    intro name txt st
    rw [recurse_succ]
    have h01 : StepOk st { st with
        lookup_count := st.lookup_count + (spfMechFindall txt).length,
        processed := st.processed ++ [txt] } := by
      refine ⟨⟨[txt], rfl⟩, ⟨[], (List.append_nil _).symm⟩,
        ⟨[], (List.append_nil _).symm⟩, ⟨[], (List.append_nil _).symm⟩, ?_, id, id⟩
      intro h q hq
      obtain ⟨p, hp, hm⟩ := h q hq
      exact ⟨p, List.mem_append_left _ hp, hm⟩
    refine stepOk_trans h01
      (foldl_stepOk _ (fun s => txt ∈ s.processed)
        (fun a b hab hta => stepOk_processed_mono hab hta)
        (spfIncludeFindall txt) ?_ _ ?_)
    · intro acc inc0 hmem hproc
      dsimp only
      by_cases hvis : pyStrip inc0 ∈ acc.visited
      · rw [if_pos hvis]
        exact stepOk_refl acc
      · rw [if_neg hvis]
        refine stepOk_trans
          (stepOk_addInclude acc (pyStrip inc0) txt hvis
            (List.mem_map_of_mem pyStrip hmem) hproc)
          (foldl_stepOk _ (fun _ => True) (fun _ _ _ _ => trivial) _
            (fun a s hs _ => ih (pyStrip inc0) s a) _ trivial)
    · exact List.mem_append_right _ (List.mem_singleton_self txt)

lemma resolve_stepOk (dns : String → List String) (domain txt : String) (m : Nat) :
    StepOk initState (resolve_spf_lookups dns domain txt m) :=
  recurse_stepOk dns (m + 1) domain txt initState

/-- C5: the resolver's ghost query log never repeats a target (a target
already in the global visited set is never queried again), and two walks
over pointwise-equal inert DNS data produce identical `lookup_count` and
identical `resolved_domains`. -/
theorem resolve_spf_lookups_queries_once_and_deterministic
    (dns₁ dns₂ : String → List String) (domain spf_text : String) (m : Nat)
    (h : ∀ n, dns₁ n = dns₂ n) :
    (resolve_spf_lookups dns₁ domain spf_text m).queries.Nodup ∧
    (resolve_spf_lookups dns₁ domain spf_text m).lookup_count
      = (resolve_spf_lookups dns₂ domain spf_text m).lookup_count ∧
    (resolve_spf_lookups dns₁ domain spf_text m).resolved
      = (resolve_spf_lookups dns₂ domain spf_text m).resolved := by
  have hd : dns₁ = dns₂ := funext h
  subst hd
  obtain ⟨_, _, _, _, _, hQO, _⟩ := resolve_stepOk dns₁ domain spf_text m
  exact ⟨(hQO ⟨List.nodup_nil, fun q hq => (List.not_mem_nil q hq).elim⟩).1, rfl, rfl⟩

/-- C5 witness: the chain fixture exercises the theorem at a concrete input. -/
theorem resolve_queries_once_witness :
    (resolve_spf_lookups chainDns "example.com" "v=spf1 include:a1.com" 10).queries.Nodup ∧
    (resolve_spf_lookups chainDns "example.com" "v=spf1 include:a1.com" 10).lookup_count
      = (resolve_spf_lookups chainDns "example.com" "v=spf1 include:a1.com" 10).lookup_count ∧
    (resolve_spf_lookups chainDns "example.com" "v=spf1 include:a1.com" 10).resolved
      = (resolve_spf_lookups chainDns "example.com" "v=spf1 include:a1.com" 10).resolved :=
  resolve_spf_lookups_queries_once_and_deterministic chainDns chainDns "example.com"
    "v=spf1 include:a1.com" 10 (fun _ => rfl)

/-- C9: every domain the resolver queries (and hence every domain it recurses
into or adds to `resolved_domains`) is an `include:` target of one of the
processed SPF texts, so a domain appearing only as a `redirect=` target is
never queried, never descended into, and never resolved. -/
theorem resolve_spf_lookups_never_follows_redirect
    (dns : String → List String) (domain spf_text : String) (m : Nat) (x : String)
    (h : ∀ p ∈ (resolve_spf_lookups dns domain spf_text m).processed,
        x ∉ includeTargetsOf p) :
    x ∉ (resolve_spf_lookups dns domain spf_text m).queries ∧
    x ∉ (resolve_spf_lookups dns domain spf_text m).resolved := by
  obtain ⟨_, _, _, _, hQFI, _, hRQ⟩ := resolve_stepOk dns domain spf_text m
  have hq : QueriesFromIncludes (resolve_spf_lookups dns domain spf_text m) :=
    hQFI (fun q hq => (List.not_mem_nil q hq).elim)
  have hr : ResolvedQueried (resolve_spf_lookups dns domain spf_text m) :=
    hRQ (fun q hq => (List.not_mem_nil q hq).elim)
  constructor
  · intro hx
    obtain ⟨p, hp, hm⟩ := hq x hx
    exact h p hp hm
  · intro hx
    obtain ⟨p, hp, hm⟩ := hq x (hr x hx)
    exact h p hp hm

/-- C9 witness: a record whose only lookup target is a `redirect=` leads to
no query and no resolved domain for the redirect target. -/
theorem resolve_never_follows_redirect_witness :
    "r.com" ∉
      (resolve_spf_lookups emptyDns "example.com" "v=spf1 redirect=r.com -all" 10).queries ∧
    "r.com" ∉
      (resolve_spf_lookups emptyDns "example.com" "v=spf1 redirect=r.com -all" 10).resolved :=
  resolve_spf_lookups_never_follows_redirect emptyDns "example.com"
    "v=spf1 redirect=r.com -all" 10 "r.com" (by decide)

end MailIntelKit
